import Mathlib

/-!
Verification of livego: timestamp base / liveness tracker and relay control handlers

A shallow embedding of

* `av/av.go`      : the tag constants `TagAudio`, `TagVideo`;
* `av/rwbase.go`  : `RWBaser` with `NewRWBaser`, `BaseTimeStamp`, `CalcBaseTimestamp`,
                    `RecTimeStamp`, `SetPreTime`, `Alive`;
* `protocol/api/api.go` : `Server.handlePull` and `Server.handlePush` on the session table.

Conventions.  `uint32` values are natural numbers (the embedded code performs no arithmetic
on them, only comparisons and assignments).  The wall clock is an explicit instant, an
integer number of nanoseconds, passed to every function that reads `time.Now()`.
A `time.Duration` is an integer number of nanoseconds.  The mutex of `RWBaser` guards a
single sequential access and does not appear in the state.
-/

namespace Livego

namespace Av

/-! ## av/av.go -/

def TagAudio : Nat := 0x08

def TagVideo : Nat := 0x09

def TagScriptDataAmf0 : Nat := 0x12

def TagScriptDataAmf3 : Nat := 0x0f

/-! ## av/rwbase.go -/

/-- Largest value of a Go `time.Duration` (an `int64` count of nanoseconds). -/
def maxDuration : Int := 2 ^ 63 - 1

/-- Smallest value of a Go `time.Duration`. -/
def minDuration : Int := -(2 ^ 63)

/-- The method `time.Time.Sub` of the Go standard library on clock readings in nanoseconds:
the difference `t - u`, replaced by the largest (smallest) duration when it does not fit. -/
def Sub (t u : Int) : Int :=
  if t - u > maxDuration then maxDuration
  else if t - u < minDuration then minDuration
  else t - u

/-- The struct `RWBaser` without its mutex. -/
structure RWBaser where
  timeout : Int
  PreTime : Int
  BaseTimestamp : Nat
  LastVideoTimestamp : Nat
  LastAudioTimestamp : Nat
deriving DecidableEq, Repr

/-- The constructor `NewRWBaser(duration)`, evaluated when the clock reads `now`;
the fields that the composite literal leaves out hold their zero value. -/
def NewRWBaser (duration : Int) (now : Int) : RWBaser :=
  { timeout := duration
    PreTime := now
    BaseTimestamp := 0
    LastVideoTimestamp := 0
    LastAudioTimestamp := 0 }

def RWBaser.BaseTimeStamp (rw : RWBaser) : Nat :=
  rw.BaseTimestamp

def RWBaser.CalcBaseTimestamp (rw : RWBaser) : RWBaser :=
  if rw.LastAudioTimestamp > rw.LastVideoTimestamp then
    { rw with BaseTimestamp := rw.LastAudioTimestamp }
  else
    { rw with BaseTimestamp := rw.LastVideoTimestamp }

/-- The method `RecTimeStamp(timestamp, typeID)`; the last branch only writes a log line. -/
def RWBaser.RecTimeStamp (rw : RWBaser) (timestamp typeID : Nat) : RWBaser :=
  if typeID = TagVideo then
    { rw with LastVideoTimestamp := timestamp }
  else if typeID = TagAudio then
    { rw with LastAudioTimestamp := timestamp }
  else
    rw

/-- The method `SetPreTime()`, evaluated when the clock reads `now`. -/
def RWBaser.SetPreTime (rw : RWBaser) (now : Int) : RWBaser :=
  { rw with PreTime := now }

/-- The method `Alive()`, evaluated when the clock reads `now`. -/
def RWBaser.Alive (rw : RWBaser) (now : Int) : Bool :=
  !(decide (Sub now rw.PreTime ≥ rw.timeout))

/-- One recorded call `RecTimeStamp(timestamp, typeID)`. -/
structure RecCall where
  timestamp : Nat
  typeID : Nat
deriving DecidableEq, Repr

/-- The state after a finite sequence of `RecTimeStamp` calls, applied first to last. -/
def RWBaser.recAll (rw : RWBaser) (calls : List RecCall) : RWBaser :=
  calls.foldl (fun s c => s.RecTimeStamp c.timestamp c.typeID) rw

/-- The timestamps of the calls made with the given tag, in call order. -/
def trackTimestamps (tag : Nat) (calls : List RecCall) : List Nat :=
  (calls.filter (fun c => decide (c.typeID = tag))).map (fun c => c.timestamp)

/-- The highest of a list of timestamps, 0 for the empty list. -/
def highest (ts : List Nat) : Nat :=
  ts.foldl max 0

/-- The most recent of a list of timestamps, 0 for the empty list. -/
def mostRecent (ts : List Nat) : Nat :=
  ts.getLastD 0

end Av

namespace Api

/-! ## protocol/api/api.go -/

/-- Modelled from the spec: the type `rtmprelay.RtmpRelay` is declared outside the files at
hand.  A relay session records its source URL and its target URL; the Go value is a pointer,
so `ref` stands for the identity of the allocated object. -/
structure RtmpRelay where
  ref : Nat
  PlayUrl : String
  PublishUrl : String
deriving DecidableEq, Repr

/-- Modelled from the spec: the constructor `rtmprelay.NewRtmpRelay(&playUrl, &publishUrl)`,
declared outside the files at hand, allocating the object `ref`. -/
def NewRtmpRelay (ref : Nat) (playUrl publishUrl : String) : RtmpRelay :=
  { ref := ref, PlayUrl := playUrl, PublishUrl := publishUrl }

/-- The struct `Response` (the writer `w` is where `SendJson` sends it); `Data` is `nil`
or a string in the two relay handlers. -/
structure Response where
  Status : Int
  Data : Option String
deriving DecidableEq, Repr

/-- The Go type `map[string]*rtmprelay.RtmpRelay`: lookup by key, `none` when not found. -/
abbrev SessionTable := String → Option RtmpRelay

/-- The assignment `m[k] = v`. -/
def SessionTable.set (m : SessionTable) (k : String) (v : RtmpRelay) : SessionTable :=
  fun k1 => if k1 = k then some v else m k1

/-- The statement `delete(m, k)`. -/
def SessionTable.delete (m : SessionTable) (k : String) : SessionTable :=
  fun k1 => if k1 = k then none else m k1

/-- The struct `Server`, restricted to the fields the relay handlers read or write. -/
structure Server where
  session : SessionTable
  rtmpAddr : String

/-- The constructor `NewServer(h, rtmpAddr)`: an empty session table. -/
def NewServer (rtmpAddr : String) : Server :=
  { session := fun _ => none, rtmpAddr := rtmpAddr }

/-- What a relay handler reads from the `*http.Request`: whether `req.ParseForm()` returned
an error, and the values `req.Form.Get` returns for `oper`, `app`, `channel_key`, `url`
(the empty string for an absent parameter). -/
structure Request where
  parseFormErr : Bool
  oper : String
  app : String
  channelKey : String
  url : String
deriving DecidableEq, Repr

/-- The Go builtin `len` on a string: its number of bytes. -/
def len (s : String) : Nat := s.utf8ByteSize

/-- What one handler call leaves behind: the server, the response sent by the deferred
`SendJson`, and the relays on which `Stop()` was called, in call order. -/
structure Outcome where
  server : Server
  res : Response
  stopped : List RtmpRelay

/-- The session key computed by `handlePull`. -/
def pullKey (app channelKey : String) : String :=
  "pull:" ++ app ++ "/" ++ channelKey

/-- The session key computed by `handlePush`. -/
def pushKey (app channelKey : String) : String :=
  "push:" ++ app ++ "/" ++ channelKey

/-- The method `Server.handlePull`.  `ref` is the object that `NewRtmpRelay` allocates, and
`startErr` is what `Start()` returns on it: `none` for `nil`, `some e` for an error whose
text is `e`.  Log lines are left out. -/
def handlePull (s : Server) (req : Request) (ref : Nat) (startErr : Option String) : Outcome :=
  if req.parseFormErr then
    { server := s
      res := { Status := 400
               Data := some "url: /control/pull?&oper=start&app=live&channel_key=rfBd56ti2SMtYvSgD5xAV0YU99zampta7Z7S575KLkIZ9PYk&url=rtmp://\x7bpull_streaming_server\x7d/live/movie" }
      stopped := [] }
  else
    let oper := req.oper
    let app := req.app
    let channelKey := req.channelKey
    let url := req.url
    if len app ≤ 0 ∨ len channelKey ≤ 0 ∨ len url ≤ 0 then
      { server := s
        res := { Status := 400, Data := some "control pull parameter error, please check them." }
        stopped := [] }
    else
      let publishUrl := "rtmp://127.0.0.1" ++ s.rtmpAddr ++ "/" ++ app ++ "/" ++ channelKey
      let playUrl := url
      let keyString := "pull:" ++ app ++ "/" ++ channelKey
      if oper = "stop" then
        match s.session keyString with
        | none =>
          { server := s
            res := { Status := 400
                     Data := some ("session key[" ++ keyString ++ "] not exist, please check it again.") }
            stopped := [] }
        | some pullRtmprelay =>
          { server := { s with session := s.session.delete keyString }
            res := { Status := 200, Data := some ("<h1>pull url stop " ++ url ++ " ok</h1></br>") }
            stopped := [pullRtmprelay] }
      else
        let pullRtmprelay := NewRtmpRelay ref playUrl publishUrl
        match startErr with
        | some err =>
          { server := s
            res := { Status := 400, Data := some ("pull error=" ++ err) }
            stopped := [] }
        | none =>
          { server := { s with session := s.session.set keyString pullRtmprelay }
            res := { Status := 200, Data := some ("<h1>pull url start " ++ url ++ " ok</h1></br>") }
            stopped := [] }

/-- The method `Server.handlePush`, with `ref` and `startErr` as for `handlePull`.  Its
`ParseForm` branch sets `Data` only, so the status stays 200 there. -/
def handlePush (s : Server) (req : Request) (ref : Nat) (startErr : Option String) : Outcome :=
  if req.parseFormErr then
    { server := s
      res := { Status := 200
               Data := some "url: /control/push?&oper=start&app=live&channel_key=rfBd56ti2SMtYvSgD5xAV0YU99zampta7Z7S575KLkIZ9PYk&url=rtmp://\x7bpush_streaming_server\x7d/live/movie" }
      stopped := [] }
  else
    let oper := req.oper
    let app := req.app
    let channelKey := req.channelKey
    let url := req.url
    if len app ≤ 0 ∨ len channelKey ≤ 0 ∨ len url ≤ 0 then
      { server := s
        res := { Status := 400, Data := some "control push parameter error, please check them." }
        stopped := [] }
    else
      let playUrl := "rtmp://127.0.0.1" ++ s.rtmpAddr ++ "/" ++ app ++ "/" ++ channelKey
      let publishUrl := url
      let keyString := "push:" ++ app ++ "/" ++ channelKey
      if oper = "stop" then
        match s.session keyString with
        | none =>
          { server := s
            res := { Status := 400
                     Data := some ("<h1>session key[" ++ keyString ++ "] not exist, please check it again.</h1>") }
            stopped := [] }
        | some pushRtmprelay =>
          { server := { s with session := s.session.delete keyString }
            res := { Status := 200, Data := some ("<h1>push url stop " ++ url ++ " ok</h1></br>") }
            stopped := [pushRtmprelay] }
      else
        let pushRtmprelay := NewRtmpRelay ref playUrl publishUrl
        match startErr with
        | some err =>
          { server := s
            res := { Status := 400, Data := some ("push error=" ++ err) }
            stopped := [] }
        | none =>
          { server := { s with session := s.session.set keyString pushRtmprelay }
            res := { Status := 200, Data := some ("<h1>push url start " ++ url ++ " ok</h1></br>") }
            stopped := [] }

/-- A session table holding one pull session for app `live`, channel key `key1`. -/
def demoTable : SessionTable :=
  SessionTable.set (fun _ => none) "pull:live/key1"
    (NewRtmpRelay 1 "rtmp://remote/x" "rtmp://127.0.0.1:1935/live/key1")

/-- A server on `:1935` whose table is `demoTable`. -/
def demoServer : Server :=
  { session := demoTable, rtmpAddr := ":1935" }

/-- A start request for app `live`, channel key `key1`, remote `rtmp://remote/y`. -/
def demoStart : Request :=
  { parseFormErr := false, oper := "start", app := "live", channelKey := "key1",
    url := "rtmp://remote/y" }

end Api

/-! ## Timestamp base and liveness: proofs -/

namespace Av

theorem tagAudio_ne_tagVideo : TagAudio ≠ TagVideo := by decide

theorem getLastD_cons_eq (x a : Nat) (r : List Nat) :
    (x :: r).getLastD a = r.getLastD x := by
  cases r <;> rfl

theorem recAll_nil (rw : RWBaser) : rw.recAll [] = rw := rfl

theorem recAll_cons (rw : RWBaser) (c : RecCall) (cs : List RecCall) :
    rw.recAll (c :: cs) = (rw.RecTimeStamp c.timestamp c.typeID).recAll cs := rfl

theorem trackTimestamps_cons (tag : Nat) (c : RecCall) (cs : List RecCall) :
    trackTimestamps tag (c :: cs)
      = if c.typeID = tag then c.timestamp :: trackTimestamps tag cs
        else trackTimestamps tag cs := by
  by_cases h : c.typeID = tag <;> simp [trackTimestamps, List.filter_cons, h]

/-- After any sequence of calls the audio field holds the timestamp of the last audio call,
or its initial value when there was none. -/
theorem recAll_lastAudio (calls : List RecCall) :
    ∀ rw : RWBaser, (rw.recAll calls).LastAudioTimestamp
      = (trackTimestamps TagAudio calls).getLastD rw.LastAudioTimestamp := by
  induction calls with
  | nil => intro rw; rfl
  | cons c cs ih =>
    intro rw
    rw [recAll_cons, ih, trackTimestamps_cons]
    by_cases hv : c.typeID = TagVideo
    · have ha : c.typeID ≠ TagAudio := fun h => tagAudio_ne_tagVideo (h.symm.trans hv)
      simp [RWBaser.RecTimeStamp, hv, ha, Ne.symm tagAudio_ne_tagVideo]
    · by_cases ha : c.typeID = TagAudio
      · rw [if_pos ha, getLastD_cons_eq]
        simp [RWBaser.RecTimeStamp, ha, tagAudio_ne_tagVideo]
      · simp [RWBaser.RecTimeStamp, hv, ha]

/-- After any sequence of calls the video field holds the timestamp of the last video call,
or its initial value when there was none. -/
theorem recAll_lastVideo (calls : List RecCall) :
    ∀ rw : RWBaser, (rw.recAll calls).LastVideoTimestamp
      = (trackTimestamps TagVideo calls).getLastD rw.LastVideoTimestamp := by
  induction calls with
  | nil => intro rw; rfl
  | cons c cs ih =>
    intro rw
    rw [recAll_cons, ih, trackTimestamps_cons]
    by_cases hv : c.typeID = TagVideo
    · rw [if_pos hv, getLastD_cons_eq]
      simp [RWBaser.RecTimeStamp, hv]
    · by_cases ha : c.typeID = TagAudio
      · simp [RWBaser.RecTimeStamp, ha, tagAudio_ne_tagVideo]
      · simp [RWBaser.RecTimeStamp, hv, ha]

theorem trackTimestamps_eq_nil (tag : Nat) (calls : List RecCall)
    (h : ∀ c ∈ calls, c.typeID ≠ tag) : trackTimestamps tag calls = [] := by
  induction calls with
  | nil => rfl
  | cons c cs ih =>
    rw [trackTimestamps_cons, if_neg (h c (List.mem_cons_self _ _))]
    exact ih (fun d hd => h d (List.mem_cons_of_mem _ hd))

theorem calcBaseTimestamp_eq_max (rw : RWBaser) :
    rw.CalcBaseTimestamp.BaseTimeStamp = max rw.LastAudioTimestamp rw.LastVideoTimestamp := by
  unfold RWBaser.CalcBaseTimestamp RWBaser.BaseTimeStamp
  by_cases h : rw.LastAudioTimestamp > rw.LastVideoTimestamp
  · simp only [h, if_true]; omega
  · simp only [h, if_false]; omega

/-- On timestamps in non-decreasing order, all at least `a`, the running maximum started
at `a` ends at the last one. -/
theorem foldl_max_sorted (ts : List Nat) :
    ∀ a : Nat, (∀ t ∈ ts, a ≤ t) → ts.Pairwise (fun x y => x ≤ y) →
      ts.foldl max a = ts.getLastD a := by
  induction ts with
  | nil => intro a _ _; rfl
  | cons x r ih =>
    intro a ha hs
    have hax : a ≤ x := ha x (List.mem_cons_self _ _)
    have hx : ∀ t ∈ r, x ≤ t := (List.pairwise_cons.mp hs).1
    have hr : r.Pairwise (fun x y => x ≤ y) := (List.pairwise_cons.mp hs).2
    simp only [List.foldl_cons, Nat.max_eq_right hax]
    rw [ih x hx hr, getLastD_cons_eq]

theorem highest_eq_mostRecent (ts : List Nat) (hs : ts.Pairwise (fun x y => x ≤ y)) :
    highest ts = mostRecent ts :=
  foldl_max_sorted ts 0 (fun _ _ => Nat.zero_le _) hs

theorem sub_self_eq_zero (t : Int) : Sub t t = 0 := by
  simp [Sub, maxDuration, minDuration]

/-- C1: for a tracker made by `NewRWBaser` and any finite sequence of `RecTimeStamp` calls,
a following `CalcBaseTimestamp` makes `BaseTimeStamp()` return exactly the maximum of
`LastAudioTimestamp` and `LastVideoTimestamp` of the state at that moment; a track that no
call recorded holds 0 in that state. -/
theorem calcBaseTimestamp_after_recAll (duration now : Int) (calls : List RecCall) :
    ((NewRWBaser duration now).recAll calls).CalcBaseTimestamp.BaseTimeStamp
        = max ((NewRWBaser duration now).recAll calls).LastAudioTimestamp
              ((NewRWBaser duration now).recAll calls).LastVideoTimestamp
    ∧ ((∀ c ∈ calls, c.typeID ≠ TagAudio) →
        ((NewRWBaser duration now).recAll calls).LastAudioTimestamp = 0)
    ∧ ((∀ c ∈ calls, c.typeID ≠ TagVideo) →
        ((NewRWBaser duration now).recAll calls).LastVideoTimestamp = 0) := by
  refine ⟨calcBaseTimestamp_eq_max _, ?_, ?_⟩
  · intro h
    rw [recAll_lastAudio, trackTimestamps_eq_nil TagAudio calls h]
    rfl
  · intro h
    rw [recAll_lastVideo, trackTimestamps_eq_nil TagVideo calls h]
    rfl

/-- C1, at the calls video=90, video=70 of a tracker that never saw audio: the base is the
video timestamp 70, the audio track counting as 0. -/
theorem calcBaseTimestamp_after_recAll_witness :
    (∀ c ∈ [RecCall.mk 90 TagVideo, RecCall.mk 70 TagVideo], c.typeID ≠ TagAudio)
    ∧ ((NewRWBaser 1000 0).recAll
          [RecCall.mk 90 TagVideo, RecCall.mk 70 TagVideo]).LastAudioTimestamp = 0
    ∧ ((NewRWBaser 1000 0).recAll
          [RecCall.mk 90 TagVideo, RecCall.mk 70 TagVideo]).CalcBaseTimestamp.BaseTimeStamp
        = max 0 70 :=
  have hno : ∀ c ∈ [RecCall.mk 90 TagVideo, RecCall.mk 70 TagVideo], c.typeID ≠ TagAudio := by
    decide
  ⟨hno,
   (calcBaseTimestamp_after_recAll 1000 0
      [RecCall.mk 90 TagVideo, RecCall.mk 70 TagVideo]).2.1 hno,
   by decide⟩

/-- C5, as stated, fails for the timeout zero: `Alive()` at the very instant at which
`SetPreTime()` stored `PreTime` returns false. -/
theorem alive_zero_timeout_same_instant :
    ((NewRWBaser 0 0).SetPreTime 5).PreTime = 5
    ∧ ((NewRWBaser 0 0).SetPreTime 5).timeout = 0
    ∧ ((NewRWBaser 0 0).SetPreTime 5).Alive 5 = false := by
  decide

/-- C5, amended: at the instant at which `SetPreTime()` stored `PreTime`, `Alive()` returns
true exactly when the timeout is positive (so it is false there for the timeout zero); and
for every timeout, `Alive()` at any instant with `now - PreTime >= timeout` returns false. -/
theorem alive_window (rw : RWBaser) (t now : Int) (hrange : rw.timeout ≤ maxDuration) :
    (rw.SetPreTime t).PreTime = t
    ∧ (rw.SetPreTime t).timeout = rw.timeout
    ∧ ((rw.SetPreTime t).Alive t = true ↔ 0 < rw.timeout)
    ∧ (now - rw.PreTime ≥ rw.timeout → rw.Alive now = false) := by
  refine ⟨rfl, rfl, ?_, ?_⟩
  · simp [RWBaser.Alive, RWBaser.SetPreTime, sub_self_eq_zero]
  · intro h
    unfold RWBaser.Alive Sub
    by_cases h1 : now - rw.PreTime > maxDuration
    · simp only [h1, if_true]
      simpa using hrange
    · by_cases h2 : now - rw.PreTime < minDuration
      · simp only [h1, h2, if_true, if_false]
        have h3 : rw.timeout ≤ minDuration := le_of_lt (lt_of_le_of_lt h h2)
        simpa using h3
      · simp only [h1, h2, if_false]
        simpa using h

/-- C5 amended, at a one-second timeout refreshed at instant 5: alive at instant 5, dead at
instant 5 + 1000000000. -/
theorem alive_window_witness :
    (NewRWBaser 1000000000 0).timeout ≤ maxDuration
    ∧ ((NewRWBaser 1000000000 0).SetPreTime 5).Alive 5 = true
    ∧ ((NewRWBaser 1000000000 0).SetPreTime 5).Alive 1000000005 = false :=
  have hr : (NewRWBaser 1000000000 0).timeout ≤ maxDuration := by decide
  ⟨hr,
   (alive_window (NewRWBaser 1000000000 0) 5 0 hr).2.2.1.mpr (by decide),
   (alive_window ((NewRWBaser 1000000000 0).SetPreTime 5) 5 1000000005 hr).2.2.2 (by decide)⟩

/-- C6: `RecTimeStamp(ts, typeID)` changes no field but the one its tag selects: with
`TagAudio` (8) only `LastAudioTimestamp`, which becomes `ts`; with `TagVideo` (9) only
`LastVideoTimestamp`, which becomes `ts`; with any other tag the whole state is unchanged.
`BaseTimestamp`, `PreTime` and `timeout` are never changed, and the call always returns. -/
theorem recTimeStamp_frame (rw : RWBaser) (ts typeID : Nat) :
    TagAudio = 8 ∧ TagVideo = 9
    ∧ rw.RecTimeStamp ts TagAudio = { rw with LastAudioTimestamp := ts }
    ∧ rw.RecTimeStamp ts TagVideo = { rw with LastVideoTimestamp := ts }
    ∧ (typeID ≠ TagAudio → typeID ≠ TagVideo → rw.RecTimeStamp ts typeID = rw)
    ∧ (rw.RecTimeStamp ts typeID).BaseTimestamp = rw.BaseTimestamp
    ∧ (rw.RecTimeStamp ts typeID).PreTime = rw.PreTime
    ∧ (rw.RecTimeStamp ts typeID).timeout = rw.timeout
    ∧ (typeID ≠ TagAudio →
        (rw.RecTimeStamp ts typeID).LastAudioTimestamp = rw.LastAudioTimestamp)
    ∧ (typeID ≠ TagVideo →
        (rw.RecTimeStamp ts typeID).LastVideoTimestamp = rw.LastVideoTimestamp) := by
  refine ⟨rfl, rfl, ?_, ?_, ?_, ?_, ?_, ?_, ?_, ?_⟩
  · simp [RWBaser.RecTimeStamp, tagAudio_ne_tagVideo]
  · simp [RWBaser.RecTimeStamp]
  · intro ha hv
    simp [RWBaser.RecTimeStamp, ha, hv]
  · unfold RWBaser.RecTimeStamp; split_ifs <;> rfl
  · unfold RWBaser.RecTimeStamp; split_ifs <;> rfl
  · unfold RWBaser.RecTimeStamp; split_ifs <;> rfl
  · intro ha
    unfold RWBaser.RecTimeStamp; split_ifs <;> rfl
  · intro hv
    unfold RWBaser.RecTimeStamp; rw [if_neg hv]; split_ifs <;> rfl

/-- C6, at the script-data tag 0x12 on a tracker holding audio=100, video=90, base=100:
the state is unchanged. -/
theorem recTimeStamp_frame_witness :
    TagScriptDataAmf0 ≠ TagAudio ∧ TagScriptDataAmf0 ≠ TagVideo
    ∧ RWBaser.RecTimeStamp ⟨1000, 7, 100, 90, 100⟩ 500 TagScriptDataAmf0
        = ⟨1000, 7, 100, 90, 100⟩ :=
  ⟨by decide, by decide,
   (recTimeStamp_frame ⟨1000, 7, 100, 90, 100⟩ 500 TagScriptDataAmf0).2.2.2.2.1
     (by decide) (by decide)⟩

/-- C7, as stated, fails: after the audio calls 100 then 50, `LastAudioTimestamp` is 50
while the highest audio timestamp recorded is 100. -/
theorem lastAudio_not_highest :
    ((NewRWBaser 1000 0).recAll
        [RecCall.mk 100 TagAudio, RecCall.mk 50 TagAudio]).LastAudioTimestamp = 50
    ∧ highest (trackTimestamps TagAudio
        [RecCall.mk 100 TagAudio, RecCall.mk 50 TagAudio]) = 100 := by
  decide

/-- C7, amended: after any finite sequence of `RecTimeStamp` calls on a tracker made by
`NewRWBaser`, `LastAudioTimestamp` is the timestamp of the most recent call made with
`TagAudio` (0 if none) and `LastVideoTimestamp` that of the most recent call made with
`TagVideo` (0 if none); each is the highest timestamp of its track whenever that track's
timestamps were recorded in non-decreasing order. -/
theorem lastTimestamps_most_recent (duration now : Int) (calls : List RecCall) :
    ((NewRWBaser duration now).recAll calls).LastAudioTimestamp
        = mostRecent (trackTimestamps TagAudio calls)
    ∧ ((NewRWBaser duration now).recAll calls).LastVideoTimestamp
        = mostRecent (trackTimestamps TagVideo calls)
    ∧ ((trackTimestamps TagAudio calls).Pairwise (fun x y => x ≤ y) →
        ((NewRWBaser duration now).recAll calls).LastAudioTimestamp
          = highest (trackTimestamps TagAudio calls))
    ∧ ((trackTimestamps TagVideo calls).Pairwise (fun x y => x ≤ y) →
        ((NewRWBaser duration now).recAll calls).LastVideoTimestamp
          = highest (trackTimestamps TagVideo calls)) := by
  have ha := recAll_lastAudio calls (NewRWBaser duration now)
  have hv := recAll_lastVideo calls (NewRWBaser duration now)
  refine ⟨ha, hv, ?_, ?_⟩
  · intro hs
    rw [highest_eq_mostRecent _ hs]
    exact ha
  · intro hs
    rw [highest_eq_mostRecent _ hs]
    exact hv

/-- C7 amended, at the interleaved calls audio=10, video=5, audio=20, video=90: the audio
timestamps 10, 20 are in order and `LastAudioTimestamp` is their highest, 20. -/
theorem lastTimestamps_most_recent_witness :
    (trackTimestamps TagAudio
        [RecCall.mk 10 TagAudio, RecCall.mk 5 TagVideo, RecCall.mk 20 TagAudio,
         RecCall.mk 90 TagVideo]).Pairwise (fun x y => x ≤ y)
    ∧ ((NewRWBaser 1000 0).recAll
        [RecCall.mk 10 TagAudio, RecCall.mk 5 TagVideo, RecCall.mk 20 TagAudio,
         RecCall.mk 90 TagVideo]).LastAudioTimestamp
        = highest (trackTimestamps TagAudio
            [RecCall.mk 10 TagAudio, RecCall.mk 5 TagVideo, RecCall.mk 20 TagAudio,
             RecCall.mk 90 TagVideo])
    ∧ highest (trackTimestamps TagAudio
            [RecCall.mk 10 TagAudio, RecCall.mk 5 TagVideo, RecCall.mk 20 TagAudio,
             RecCall.mk 90 TagVideo]) = 20 :=
  have hs : (trackTimestamps TagAudio
        [RecCall.mk 10 TagAudio, RecCall.mk 5 TagVideo, RecCall.mk 20 TagAudio,
         RecCall.mk 90 TagVideo]).Pairwise (fun x y => x ≤ y) := by decide
  ⟨hs,
   (lastTimestamps_most_recent 1000 0
      [RecCall.mk 10 TagAudio, RecCall.mk 5 TagVideo, RecCall.mk 20 TagAudio,
       RecCall.mk 90 TagVideo]).2.2.1 hs,
   by decide⟩

end Av

/-! ## Relay control handlers: proofs -/

namespace Api

theorem utf8ByteSize_go_cons_pos (c : Char) (cs : List Char) :
    0 < String.utf8ByteSize.go (c :: cs) := by
  have hc : 0 < c.utf8Size := Char.utf8Size_pos c
  simp only [String.utf8ByteSize.go]
  omega

/-- A string has no bytes exactly when it is the empty string. -/
theorem len_le_zero_iff (s : String) : len s ≤ 0 ↔ s = "" := by
  constructor
  · intro h
    cases s with
    | mk l =>
      cases l with
      | nil => rfl
      | cons c cs =>
        have hp := utf8ByteSize_go_cons_pos c cs
        simp only [len, String.utf8ByteSize] at h
        omega
  · intro h
    subst h
    decide

theorem len_ne_zero (s : String) (h : s ≠ "") : len s ≠ 0 := by
  intro h0
  exact h ((len_le_zero_iff s).mp (Nat.le_of_eq h0))

theorem params_valid (app channelKey url : String)
    (happ : app ≠ "") (hkey : channelKey ≠ "") (hurl : url ≠ "") :
    len app ≠ 0 ∧ len channelKey ≠ 0 ∧ len url ≠ 0 :=
  ⟨len_ne_zero app happ, len_ne_zero channelKey hkey, len_ne_zero url hurl⟩

theorem set_same (m : SessionTable) (k : String) (v : RtmpRelay) : m.set k v k = some v := by
  simp [SessionTable.set]

theorem set_other (m : SessionTable) (k k1 : String) (v : RtmpRelay) (h : k1 ≠ k) :
    m.set k v k1 = m k1 := by
  simp [SessionTable.set, h]

theorem delete_same (m : SessionTable) (k : String) : m.delete k k = none := by
  simp [SessionTable.delete]

theorem delete_other (m : SessionTable) (k k1 : String) (h : k1 ≠ k) :
    m.delete k k1 = m k1 := by
  simp [SessionTable.delete, h]

/-- The pull handler on a start request with valid parameters whose `Start()` fails. -/
theorem handlePull_start_err (s : Server) (oper app channelKey url e : String) (ref : Nat)
    (hoper : oper ≠ "stop") (happ : app ≠ "") (hkey : channelKey ≠ "") (hurl : url ≠ "") :
    handlePull s ⟨false, oper, app, channelKey, url⟩ ref (some e)
      = { server := s, res := { Status := 400, Data := some ("pull error=" ++ e) },
          stopped := [] } := by
  have hv := params_valid app channelKey url happ hkey hurl
  simp [handlePull, hv.1, hv.2.1, hv.2.2, hoper]

/-- The pull handler on a start request with valid parameters whose `Start()` succeeds. -/
theorem handlePull_start_ok (s : Server) (oper app channelKey url : String) (ref : Nat)
    (hoper : oper ≠ "stop") (happ : app ≠ "") (hkey : channelKey ≠ "") (hurl : url ≠ "") :
    handlePull s ⟨false, oper, app, channelKey, url⟩ ref none
      = { server :=
            { s with
              session := (s.session.set (pullKey app channelKey)
                (NewRtmpRelay ref url
                  ("rtmp://127.0.0.1" ++ s.rtmpAddr ++ "/" ++ app ++ "/" ++ channelKey))) },
          res := { Status := 200, Data := some ("<h1>pull url start " ++ url ++ " ok</h1></br>") },
          stopped := [] } := by
  have hv := params_valid app channelKey url happ hkey hurl
  simp [handlePull, hv.1, hv.2.1, hv.2.2, hoper, pullKey]

/-- The pull handler on a stop request with valid parameters for a key not in the table. -/
theorem handlePull_stop_none (s : Server) (app channelKey url : String) (ref : Nat)
    (startErr : Option String)
    (happ : app ≠ "") (hkey : channelKey ≠ "") (hurl : url ≠ "")
    (hnone : s.session (pullKey app channelKey) = none) :
    handlePull s ⟨false, "stop", app, channelKey, url⟩ ref startErr
      = { server := s,
          res := { Status := 400
                   Data := some ("session key[" ++ pullKey app channelKey
                            ++ "] not exist, please check it again.") },
          stopped := [] } := by
  have hv := params_valid app channelKey url happ hkey hurl
  unfold pullKey at hnone
  simp [handlePull, hv.1, hv.2.1, hv.2.2, pullKey, hnone]

/-- The pull handler on a stop request with valid parameters for a key in the table. -/
theorem handlePull_stop_some (s : Server) (app channelKey url : String) (ref : Nat)
    (startErr : Option String) (r : RtmpRelay)
    (happ : app ≠ "") (hkey : channelKey ≠ "") (hurl : url ≠ "")
    (hsome : s.session (pullKey app channelKey) = some r) :
    handlePull s ⟨false, "stop", app, channelKey, url⟩ ref startErr
      = { server := { s with session := s.session.delete (pullKey app channelKey) },
          res := { Status := 200, Data := some ("<h1>pull url stop " ++ url ++ " ok</h1></br>") },
          stopped := [r] } := by
  have hv := params_valid app channelKey url happ hkey hurl
  unfold pullKey at hsome
  simp [handlePull, hv.1, hv.2.1, hv.2.2, pullKey, hsome]

/-- The push handler on a start request with valid parameters whose `Start()` fails. -/
theorem handlePush_start_err (s : Server) (oper app channelKey url e : String) (ref : Nat)
    (hoper : oper ≠ "stop") (happ : app ≠ "") (hkey : channelKey ≠ "") (hurl : url ≠ "") :
    handlePush s ⟨false, oper, app, channelKey, url⟩ ref (some e)
      = { server := s, res := { Status := 400, Data := some ("push error=" ++ e) },
          stopped := [] } := by
  have hv := params_valid app channelKey url happ hkey hurl
  simp [handlePush, hv.1, hv.2.1, hv.2.2, hoper]

/-- The push handler on a start request with valid parameters whose `Start()` succeeds. -/
theorem handlePush_start_ok (s : Server) (oper app channelKey url : String) (ref : Nat)
    (hoper : oper ≠ "stop") (happ : app ≠ "") (hkey : channelKey ≠ "") (hurl : url ≠ "") :
    handlePush s ⟨false, oper, app, channelKey, url⟩ ref none
      = { server :=
            { s with
              session := (s.session.set (pushKey app channelKey)
                (NewRtmpRelay ref
                  ("rtmp://127.0.0.1" ++ s.rtmpAddr ++ "/" ++ app ++ "/" ++ channelKey) url)) },
          res := { Status := 200, Data := some ("<h1>push url start " ++ url ++ " ok</h1></br>") },
          stopped := [] } := by
  have hv := params_valid app channelKey url happ hkey hurl
  simp [handlePush, hv.1, hv.2.1, hv.2.2, hoper, pushKey]

/-- The push handler on a stop request with valid parameters for a key not in the table. -/
theorem handlePush_stop_none (s : Server) (app channelKey url : String) (ref : Nat)
    (startErr : Option String)
    (happ : app ≠ "") (hkey : channelKey ≠ "") (hurl : url ≠ "")
    (hnone : s.session (pushKey app channelKey) = none) :
    handlePush s ⟨false, "stop", app, channelKey, url⟩ ref startErr
      = { server := s,
          res := { Status := 400
                   Data := some ("<h1>session key[" ++ pushKey app channelKey
                            ++ "] not exist, please check it again.</h1>") },
          stopped := [] } := by
  have hv := params_valid app channelKey url happ hkey hurl
  unfold pushKey at hnone
  simp [handlePush, hv.1, hv.2.1, hv.2.2, pushKey, hnone]

/-- The push handler on a stop request with valid parameters for a key in the table. -/
theorem handlePush_stop_some (s : Server) (app channelKey url : String) (ref : Nat)
    (startErr : Option String) (r : RtmpRelay)
    (happ : app ≠ "") (hkey : channelKey ≠ "") (hurl : url ≠ "")
    (hsome : s.session (pushKey app channelKey) = some r) :
    handlePush s ⟨false, "stop", app, channelKey, url⟩ ref startErr
      = { server := { s with session := s.session.delete (pushKey app channelKey) },
          res := { Status := 200, Data := some ("<h1>push url stop " ++ url ++ " ok</h1></br>") },
          stopped := [r] } := by
  have hv := params_valid app channelKey url happ hkey hurl
  unfold pushKey at hsome
  simp [handlePush, hv.1, hv.2.1, hv.2.2, pushKey, hsome]

/-- Two character lists split at the first occurrence of a separator agree on both sides. -/
theorem append_sep_inj (c : Char) :
    ∀ (l1 l2 r1 r2 : List Char), c ∉ l1 → c ∉ l2 →
      l1 ++ c :: r1 = l2 ++ c :: r2 → l1 = l2 ∧ r1 = r2 := by
  intro l1
  induction l1 with
  | nil =>
    intro l2 r1 r2 _ h2 h
    cases l2 with
    | nil => exact ⟨rfl, by simpa using h⟩
    | cons y l2 =>
      exfalso
      have hy : c = y := by simpa using (List.cons.inj h).1
      exact h2 (hy ▸ List.mem_cons_self _ _)
  | cons x l1 ih =>
    intro l2 r1 r2 h1 h2 h
    cases l2 with
    | nil =>
      exfalso
      have hx : x = c := by simpa using (List.cons.inj h).1
      exact h1 (hx ▸ List.mem_cons_self _ _)
    | cons y l2 =>
      have hxy : x = y := (List.cons.inj h).1
      have ht : l1 ++ c :: r1 = l2 ++ c :: r2 := (List.cons.inj h).2
      have h1t : c ∉ l1 := fun hm => h1 (List.mem_cons_of_mem _ hm)
      have h2t : c ∉ l2 := fun hm => h2 (List.mem_cons_of_mem _ hm)
      obtain ⟨hl, hr⟩ := ih l2 r1 r2 h1t h2t ht
      exact ⟨by rw [hxy, hl], hr⟩

theorem pullKey_data (app channelKey : String) :
    (pullKey app channelKey).data
      = 'p' :: 'u' :: 'l' :: 'l' :: ':' :: (app.data ++ '/' :: channelKey.data) := by
  simp [pullKey, String.data_append]

theorem pushKey_data (app channelKey : String) :
    (pushKey app channelKey).data
      = 'p' :: 'u' :: 's' :: 'h' :: ':' :: (app.data ++ '/' :: channelKey.data) := by
  simp [pushKey, String.data_append]

theorem key_tail_inj (a1 k1 a2 k2 : String) (h1 : '/' ∉ a1.data) (h2 : '/' ∉ a2.data)
    (h : a1.data ++ '/' :: k1.data = a2.data ++ '/' :: k2.data) : a1 = a2 ∧ k1 = k2 := by
  obtain ⟨ha, hk⟩ := append_sep_inj '/' a1.data a2.data k1.data k2.data h1 h2 h
  exact ⟨String.ext ha, String.ext hk⟩

/-- A handler call changes no table entry under a key other than its own. -/
theorem handlePull_other_keys (s : Server) (req : Request) (ref : Nat)
    (startErr : Option String) (k : String) (hk : k ≠ pullKey req.app req.channelKey) :
    (handlePull s req ref startErr).server.session k = s.session k := by
  unfold pullKey at hk
  simp only [handlePull]
  repeat' split
  all_goals first
    | rfl
    | exact delete_other _ _ _ hk
    | exact set_other _ _ _ _ hk

theorem handlePush_other_keys (s : Server) (req : Request) (ref : Nat)
    (startErr : Option String) (k : String) (hk : k ≠ pushKey req.app req.channelKey) :
    (handlePush s req ref startErr).server.session k = s.session k := by
  unfold pushKey at hk
  simp only [handlePush]
  repeat' split
  all_goals first
    | rfl
    | exact delete_other _ _ _ hk
    | exact set_other _ _ _ _ hk

theorem params_invalid (app channelKey url : String)
    (h : app = "" ∨ channelKey = "" ∨ url = "") :
    len app ≤ 0 ∨ len channelKey ≤ 0 ∨ len url ≤ 0 := by
  rcases h with h | h | h
  · exact Or.inl ((len_le_zero_iff _).mpr h)
  · exact Or.inr (Or.inl ((len_le_zero_iff _).mpr h))
  · exact Or.inr (Or.inr ((len_le_zero_iff _).mpr h))

/-- C2, as stated, fails: with a pull session running under `pull:live/key1`, a start
request for the same app and channel key whose `Start()` succeeds is answered with status
200, and the table entry is rebound to the relay made for the new request. -/
theorem running_key_start_replaces :
    demoServer.session (pullKey "live" "key1")
        = some (NewRtmpRelay 1 "rtmp://remote/x" "rtmp://127.0.0.1:1935/live/key1")
    ∧ (handlePull demoServer demoStart 2 none).res.Status = 200
    ∧ (handlePull demoServer demoStart 2 none).server.session (pullKey "live" "key1")
        = some (NewRtmpRelay 2 "rtmp://remote/y" "rtmp://127.0.0.1:1935/live/key1")
    ∧ (handlePull demoServer demoStart 2 none).server.session (pullKey "live" "key1")
        ≠ demoServer.session (pullKey "live" "key1") := by
  decide

/-- C2, amended: when the table already holds a session under the request's key, a start
request with non-empty app, channel key and url reports no conflict.  If the relay's
`Start()` returns an error the response has status 400 and the entry stays bound to the
session already running; if `Start()` succeeds the response has status 200, the entry is
bound to the newly created relay, and `Stop()` is called on no relay.  The same holds for
`handlePush` under the push key. -/
theorem start_on_running_key (s : Server) (oper app channelKey url : String) (ref : Nat)
    (old : RtmpRelay)
    (hoper : oper ≠ "stop") (happ : app ≠ "") (hkey : channelKey ≠ "") (hurl : url ≠ "") :
    (s.session (pullKey app channelKey) = some old →
      (∀ e : String,
        (handlePull s ⟨false, oper, app, channelKey, url⟩ ref (some e)).res.Status = 400
        ∧ (handlePull s ⟨false, oper, app, channelKey, url⟩ ref (some e)).server.session
            (pullKey app channelKey) = some old)
      ∧ (handlePull s ⟨false, oper, app, channelKey, url⟩ ref none).res.Status = 200
      ∧ (handlePull s ⟨false, oper, app, channelKey, url⟩ ref none).server.session
            (pullKey app channelKey)
          = some (NewRtmpRelay ref url
              ("rtmp://127.0.0.1" ++ s.rtmpAddr ++ "/" ++ app ++ "/" ++ channelKey))
      ∧ (handlePull s ⟨false, oper, app, channelKey, url⟩ ref none).stopped = [])
    ∧ (s.session (pushKey app channelKey) = some old →
      (∀ e : String,
        (handlePush s ⟨false, oper, app, channelKey, url⟩ ref (some e)).res.Status = 400
        ∧ (handlePush s ⟨false, oper, app, channelKey, url⟩ ref (some e)).server.session
            (pushKey app channelKey) = some old)
      ∧ (handlePush s ⟨false, oper, app, channelKey, url⟩ ref none).res.Status = 200
      ∧ (handlePush s ⟨false, oper, app, channelKey, url⟩ ref none).server.session
            (pushKey app channelKey)
          = some (NewRtmpRelay ref
              ("rtmp://127.0.0.1" ++ s.rtmpAddr ++ "/" ++ app ++ "/" ++ channelKey) url)
      ∧ (handlePush s ⟨false, oper, app, channelKey, url⟩ ref none).stopped = []) := by
  constructor
  · intro hold
    refine ⟨fun e => ?_, ?_, ?_, ?_⟩
    · rw [handlePull_start_err s oper app channelKey url e ref hoper happ hkey hurl]
      exact ⟨rfl, hold⟩
    · rw [handlePull_start_ok s oper app channelKey url ref hoper happ hkey hurl]
    · rw [handlePull_start_ok s oper app channelKey url ref hoper happ hkey hurl]
      exact set_same _ _ _
    · rw [handlePull_start_ok s oper app channelKey url ref hoper happ hkey hurl]
  · intro hold
    refine ⟨fun e => ?_, ?_, ?_, ?_⟩
    · rw [handlePush_start_err s oper app channelKey url e ref hoper happ hkey hurl]
      exact ⟨rfl, hold⟩
    · rw [handlePush_start_ok s oper app channelKey url ref hoper happ hkey hurl]
    · rw [handlePush_start_ok s oper app channelKey url ref hoper happ hkey hurl]
      exact set_same _ _ _
    · rw [handlePush_start_ok s oper app channelKey url ref hoper happ hkey hurl]

/-- C2 amended, on the running session `pull:live/key1`: a second start whose `Start()`
fails with `dial timeout` answers 400 and keeps the running relay in the table. -/
theorem start_on_running_key_witness :
    ("start" : String) ≠ "stop" ∧ ("live" : String) ≠ "" ∧ ("key1" : String) ≠ ""
    ∧ ("rtmp://remote/y" : String) ≠ ""
    ∧ demoServer.session (pullKey "live" "key1")
        = some (NewRtmpRelay 1 "rtmp://remote/x" "rtmp://127.0.0.1:1935/live/key1")
    ∧ (handlePull demoServer ⟨false, "start", "live", "key1", "rtmp://remote/y"⟩ 2
          (some "dial timeout")).res.Status = 400
    ∧ (handlePull demoServer ⟨false, "start", "live", "key1", "rtmp://remote/y"⟩ 2
          (some "dial timeout")).server.session (pullKey "live" "key1")
        = some (NewRtmpRelay 1 "rtmp://remote/x" "rtmp://127.0.0.1:1935/live/key1") :=
  have hold : demoServer.session (pullKey "live" "key1")
      = some (NewRtmpRelay 1 "rtmp://remote/x" "rtmp://127.0.0.1:1935/live/key1") := by
    decide
  ⟨by decide, by decide, by decide, by decide, hold,
   ((start_on_running_key demoServer "start" "live" "key1" "rtmp://remote/y" 2
      (NewRtmpRelay 1 "rtmp://remote/x" "rtmp://127.0.0.1:1935/live/key1")
      (by decide) (by decide) (by decide) (by decide)).1 hold).1 "dial timeout"⟩

/-- C3: when the table has no entry under the request's key, a stop request with non-empty
app, channel key and url is answered with status 400 and the message naming the session
key, `Stop()` is called on no relay, and the server, its session table included, is
unchanged.  This holds for `handlePull` and for `handlePush`. -/
theorem stop_unknown_key (s : Server) (app channelKey url : String) (ref : Nat)
    (startErr : Option String)
    (happ : app ≠ "") (hkey : channelKey ≠ "") (hurl : url ≠ "") :
    (s.session (pullKey app channelKey) = none →
      (handlePull s ⟨false, "stop", app, channelKey, url⟩ ref startErr).res
          = { Status := 400
              Data := some ("session key[" ++ pullKey app channelKey
                        ++ "] not exist, please check it again.") }
      ∧ (handlePull s ⟨false, "stop", app, channelKey, url⟩ ref startErr).stopped = []
      ∧ (handlePull s ⟨false, "stop", app, channelKey, url⟩ ref startErr).server = s)
    ∧ (s.session (pushKey app channelKey) = none →
      (handlePush s ⟨false, "stop", app, channelKey, url⟩ ref startErr).res
          = { Status := 400
              Data := some ("<h1>session key[" ++ pushKey app channelKey
                        ++ "] not exist, please check it again.</h1>") }
      ∧ (handlePush s ⟨false, "stop", app, channelKey, url⟩ ref startErr).stopped = []
      ∧ (handlePush s ⟨false, "stop", app, channelKey, url⟩ ref startErr).server = s) := by
  constructor
  · intro hnone
    rw [handlePull_stop_none s app channelKey url ref startErr happ hkey hurl hnone]
    exact ⟨rfl, rfl, rfl⟩
  · intro hnone
    rw [handlePush_stop_none s app channelKey url ref startErr happ hkey hurl hnone]
    exact ⟨rfl, rfl, rfl⟩

/-- C3, on a new server: stopping the never-started push session of app `live`, channel
key `key1` answers 400 with the message naming `push:live/key1`. -/
theorem stop_unknown_key_witness :
    ("live" : String) ≠ "" ∧ ("key1" : String) ≠ "" ∧ ("rtmp://remote/x" : String) ≠ ""
    ∧ (NewServer ":1935").session (pushKey "live" "key1") = none
    ∧ (handlePush (NewServer ":1935") ⟨false, "stop", "live", "key1", "rtmp://remote/x"⟩ 1
          none).res
        = { Status := 400
            Data := some ("<h1>session key[" ++ pushKey "live" "key1"
                      ++ "] not exist, please check it again.</h1>") } :=
  have hnone : (NewServer ":1935").session (pushKey "live" "key1") = none := rfl
  ⟨by decide, by decide, by decide, hnone,
   ((stop_unknown_key (NewServer ":1935") "live" "key1" "rtmp://remote/x" 1 none
      (by decide) (by decide) (by decide)).2 hnone).1⟩

/-- C4: from any session table, a start request with non-empty app, channel key and url
whose `Start()` succeeds, followed at once by a stop request with the same app and channel
key (and any non-empty url), is answered 200 both times, `Stop()` is called on the relay
just started, and the table ends with no entry under the request's key.  This holds for
`handlePull` and for `handlePush`. -/
theorem start_then_stop (s : Server) (oper app channelKey url url2 : String) (ref ref2 : Nat)
    (startErr2 : Option String)
    (hoper : oper ≠ "stop") (happ : app ≠ "") (hkey : channelKey ≠ "") (hurl : url ≠ "")
    (hurl2 : url2 ≠ "") :
    ((handlePull s ⟨false, oper, app, channelKey, url⟩ ref none).res.Status = 200
      ∧ (handlePull (handlePull s ⟨false, oper, app, channelKey, url⟩ ref none).server
            ⟨false, "stop", app, channelKey, url2⟩ ref2 startErr2).res.Status = 200
      ∧ (handlePull (handlePull s ⟨false, oper, app, channelKey, url⟩ ref none).server
            ⟨false, "stop", app, channelKey, url2⟩ ref2 startErr2).stopped
          = [NewRtmpRelay ref url
              ("rtmp://127.0.0.1" ++ s.rtmpAddr ++ "/" ++ app ++ "/" ++ channelKey)]
      ∧ (handlePull (handlePull s ⟨false, oper, app, channelKey, url⟩ ref none).server
            ⟨false, "stop", app, channelKey, url2⟩ ref2 startErr2).server.session
            (pullKey app channelKey) = none)
    ∧ ((handlePush s ⟨false, oper, app, channelKey, url⟩ ref none).res.Status = 200
      ∧ (handlePush (handlePush s ⟨false, oper, app, channelKey, url⟩ ref none).server
            ⟨false, "stop", app, channelKey, url2⟩ ref2 startErr2).res.Status = 200
      ∧ (handlePush (handlePush s ⟨false, oper, app, channelKey, url⟩ ref none).server
            ⟨false, "stop", app, channelKey, url2⟩ ref2 startErr2).stopped
          = [NewRtmpRelay ref
              ("rtmp://127.0.0.1" ++ s.rtmpAddr ++ "/" ++ app ++ "/" ++ channelKey) url]
      ∧ (handlePush (handlePush s ⟨false, oper, app, channelKey, url⟩ ref none).server
            ⟨false, "stop", app, channelKey, url2⟩ ref2 startErr2).server.session
            (pushKey app channelKey) = none) := by
  constructor
  · rw [handlePull_start_ok s oper app channelKey url ref hoper happ hkey hurl]
    simp only []
    rw [handlePull_stop_some _ app channelKey url2 ref2 startErr2 _ happ hkey hurl2
          (set_same _ _ _)]
    exact ⟨trivial, rfl, rfl, delete_same _ _⟩
  · rw [handlePush_start_ok s oper app channelKey url ref hoper happ hkey hurl]
    simp only []
    rw [handlePush_stop_some _ app channelKey url2 ref2 startErr2 _ happ hkey hurl2
          (set_same _ _ _)]
    exact ⟨trivial, rfl, rfl, delete_same _ _⟩

/-- C4, on the server that already runs `pull:live/key1`: start then stop of that key
leaves no entry under it. -/
theorem start_then_stop_witness :
    ("start" : String) ≠ "stop" ∧ ("live" : String) ≠ "" ∧ ("key1" : String) ≠ ""
    ∧ ("rtmp://remote/y" : String) ≠ "" ∧ ("rtmp://remote/z" : String) ≠ ""
    ∧ (handlePull
          (handlePull demoServer ⟨false, "start", "live", "key1", "rtmp://remote/y"⟩ 2
            none).server
          ⟨false, "stop", "live", "key1", "rtmp://remote/z"⟩ 3 none).server.session
          (pullKey "live" "key1") = none :=
  ⟨by decide, by decide, by decide, by decide, by decide,
   (start_then_stop demoServer "start" "live" "key1" "rtmp://remote/y" "rtmp://remote/z" 2 3
      none (by decide) (by decide) (by decide) (by decide) (by decide)).1.2.2.2⟩

/-- C8: a start request with non-empty app, channel key and url whose relay `Start()`
returns an error is answered with status 400 and a message carrying the text of that
error, and the session table after the request equals the table before it.  This holds
for `handlePull` and for `handlePush`. -/
theorem start_failure_leaves_table (s : Server) (oper app channelKey url e : String)
    (ref : Nat)
    (hoper : oper ≠ "stop") (happ : app ≠ "") (hkey : channelKey ≠ "") (hurl : url ≠ "") :
    ((handlePull s ⟨false, oper, app, channelKey, url⟩ ref (some e)).res
        = { Status := 400, Data := some ("pull error=" ++ e) }
      ∧ (handlePull s ⟨false, oper, app, channelKey, url⟩ ref (some e)).server.session
          = s.session
      ∧ (handlePull s ⟨false, oper, app, channelKey, url⟩ ref (some e)).stopped = [])
    ∧ ((handlePush s ⟨false, oper, app, channelKey, url⟩ ref (some e)).res
        = { Status := 400, Data := some ("push error=" ++ e) }
      ∧ (handlePush s ⟨false, oper, app, channelKey, url⟩ ref (some e)).server.session
          = s.session
      ∧ (handlePush s ⟨false, oper, app, channelKey, url⟩ ref (some e)).stopped = []) := by
  rw [handlePull_start_err s oper app channelKey url e ref hoper happ hkey hurl,
      handlePush_start_err s oper app channelKey url e ref hoper happ hkey hurl]
  exact ⟨⟨rfl, rfl, rfl⟩, ⟨rfl, rfl, rfl⟩⟩

/-- C8, on a new server: a push start whose `Start()` fails with `dial timeout` answers
400 with `push error=dial timeout` and leaves the key absent. -/
theorem start_failure_leaves_table_witness :
    ("start" : String) ≠ "stop" ∧ ("live" : String) ≠ "" ∧ ("key1" : String) ≠ ""
    ∧ ("rtmp://remote/x" : String) ≠ ""
    ∧ (handlePush (NewServer ":1935") ⟨false, "start", "live", "key1", "rtmp://remote/x"⟩ 1
          (some "dial timeout")).res
        = { Status := 400, Data := some ("push error=" ++ "dial timeout") }
    ∧ (handlePush (NewServer ":1935") ⟨false, "start", "live", "key1", "rtmp://remote/x"⟩ 1
          (some "dial timeout")).server.session = (NewServer ":1935").session :=
  ⟨by decide, by decide, by decide, by decide,
   (start_failure_leaves_table (NewServer ":1935") "start" "live" "key1" "rtmp://remote/x"
      "dial timeout" 1 (by decide) (by decide) (by decide) (by decide)).2.1,
   (start_failure_leaves_table (NewServer ":1935") "start" "live" "key1" "rtmp://remote/x"
      "dial timeout" 1 (by decide) (by decide) (by decide) (by decide)).2.2.1⟩

/-- C9: for every request and every outcome of `Start()`, each table entry under a key
other than the request's own key (`pull:<app>/<channelKey>` for `handlePull`,
`push:<app>/<channelKey>` for `handlePush`) is the same after the request as before it;
and a request whose form was parsed and whose app, channel key or url is empty changes
nothing in the server, calls `Stop()` on no relay, and is answered with status 400. -/
theorem handlers_frame (s : Server) (req : Request) (ref : Nat) (startErr : Option String) :
    (∀ k : String, k ≠ pullKey req.app req.channelKey →
        (handlePull s req ref startErr).server.session k = s.session k)
    ∧ (∀ k : String, k ≠ pushKey req.app req.channelKey →
        (handlePush s req ref startErr).server.session k = s.session k)
    ∧ (req.parseFormErr = false → (req.app = "" ∨ req.channelKey = "" ∨ req.url = "") →
        ((handlePull s req ref startErr).server = s
          ∧ (handlePull s req ref startErr).res.Status = 400
          ∧ (handlePull s req ref startErr).stopped = [])
        ∧ ((handlePush s req ref startErr).server = s
          ∧ (handlePush s req ref startErr).res.Status = 400
          ∧ (handlePush s req ref startErr).stopped = [])) := by
  refine ⟨fun k hk => handlePull_other_keys s req ref startErr k hk,
          fun k hk => handlePush_other_keys s req ref startErr k hk, ?_⟩
  intro hp hempty
  have hi := params_invalid req.app req.channelKey req.url hempty
  have hpull : handlePull s req ref startErr
      = { server := s
          res := { Status := 400, Data := some "control pull parameter error, please check them." }
          stopped := [] } := by
    simp only [handlePull, hp, Bool.false_eq_true, if_false]
    rw [if_pos hi]
  have hpush : handlePush s req ref startErr
      = { server := s
          res := { Status := 400, Data := some "control push parameter error, please check them." }
          stopped := [] } := by
    simp only [handlePush, hp, Bool.false_eq_true, if_false]
    rw [if_pos hi]
  rw [hpull, hpush]
  exact ⟨⟨rfl, rfl, rfl⟩, ⟨rfl, rfl, rfl⟩⟩

/-- C9, on the server running `pull:live/key1`: a start request for channel key `key2`
leaves the entry of `key1` as it was, and a request with an empty url is answered 400. -/
theorem handlers_frame_witness :
    ("pull:live/key1" : String) ≠ pullKey "live" "key2"
    ∧ (handlePull demoServer ⟨false, "start", "live", "key2", "rtmp://remote/y"⟩ 2
          none).server.session "pull:live/key1" = demoServer.session "pull:live/key1"
    ∧ (handlePush demoServer ⟨false, "start", "live", "key1", ""⟩ 2 none).res.Status = 400 :=
  have hk : ("pull:live/key1" : String) ≠ pullKey "live" "key2" := by decide
  ⟨hk,
   (handlers_frame demoServer ⟨false, "start", "live", "key2", "rtmp://remote/y"⟩ 2
      none).1 "pull:live/key1" hk,
   ((handlers_frame demoServer ⟨false, "start", "live", "key1", ""⟩ 2 none).2.2 rfl
      (Or.inr (Or.inr rfl))).2.2.1⟩

/-- C10: no pull key equals a push key, and for apps that contain no `/` the key of an
operation determines the app and the channel key: equal pull keys, or equal push keys,
come from equal apps and equal channel keys. -/
theorem session_key_unique (app1 app2 k1 k2 : String) :
    pullKey app1 k1 ≠ pushKey app2 k2
    ∧ ('/' ∉ app1.data → '/' ∉ app2.data →
        (pullKey app1 k1 = pullKey app2 k2 → app1 = app2 ∧ k1 = k2)
        ∧ (pushKey app1 k1 = pushKey app2 k2 → app1 = app2 ∧ k1 = k2)) := by
  constructor
  · intro h
    have hd := congrArg String.data h
    rw [pullKey_data, pushKey_data] at hd
    have hc : 'l' = 's' := (List.cons.inj (List.cons.inj (List.cons.inj hd).2).2).1
    exact absurd hc (by decide)
  · intro h1 h2
    constructor
    · intro h
      have hd := congrArg String.data h
      rw [pullKey_data, pullKey_data] at hd
      simp only [List.cons.injEq, true_and] at hd
      exact key_tail_inj app1 k1 app2 k2 h1 h2 hd
    · intro h
      have hd := congrArg String.data h
      rw [pushKey_data, pushKey_data] at hd
      simp only [List.cons.injEq, true_and] at hd
      exact key_tail_inj app1 k1 app2 k2 h1 h2 hd

/-- C10, at the app `live` and a channel key that itself contains `/`: the pull key
`pull:live/a/b` is read back as app `live`, channel key `a/b`. -/
theorem session_key_unique_witness :
    '/' ∉ ("live" : String).data
    ∧ pullKey "live" "a/b" = pullKey "live" "a/b"
    ∧ (("live" : String) = "live" ∧ ("a/b" : String) = "a/b")
    ∧ pullKey "live" "a/b" ≠ pushKey "live" "a/b" :=
  have hs : '/' ∉ ("live" : String).data := by decide
  ⟨hs, rfl,
   ((session_key_unique "live" "live" "a/b" "a/b").2 hs hs).1 rfl,
   (session_key_unique "live" "live" "a/b" "a/b").1⟩

end Api

end Livego
